import Mathlib

/-!
Verification development for the visualization module
`datasetinsights/visualization/plots.py`.

The Python source is shallowly embedded below:

* pure helpers (`decode_segmap`'s loop, `_color_image`, `_get_label_image`,
  the label-rectangle geometry of `add`) become Lean functions over nested
  lists of rationals (numpy float arithmetic is modelled exactly over `Rat`);
* the dynamically typed argument checking of `add` is modelled with an
  inductive `PyVal` of Python values and an inductive `PyErr` of raised
  exceptions;
* the in-place mutation performed by `add`, and the copy discipline of
  `plot_bboxes`, are modelled with an explicit heap of image buffers
  (`Heap`), so that frame properties ("the caller's buffer is untouched")
  are actual theorems rather than artifacts of a pure embedding;
* `md5` (used by `add` for deterministic label colors) is embedded in full,
  operating on byte lists, with `hexdigest` modelled as the list of ASCII
  codes of the hex string and Python's `int(hex_digest, 16)` as a fold.

External collaborators are made parameters, following the module boundary:
the font rasterizer (`_FONT.getmask`) becomes a parameter of type `Font`,
and the `CITYSCAPES_COLOR_MAPPING` table imported from another module
becomes a parameter of `decode_segmap`.  OpenCV's `cv2.rectangle` and
numpy's slice assignment are modelled from their documented semantics
(inclusive corner filling; exclusive slices with negative-index wrapping
and a broadcast-shape check).
-/

/-! ### Basic list indexing helpers

`nth l i d` is positional indexing with an out-of-range default, the
workhorse for modelling numpy array indexing. -/

def nth {α : Type} (l : List α) (i : Nat) (d : α) : α :=
  match l, i with
  | [], _ => d
  | a :: _, 0 => a
  | _ :: t, n + 1 => nth t n d

@[simp] theorem nth_nil {α : Type} (i : Nat) (d : α) : nth ([] : List α) i d = d := rfl

@[simp] theorem nth_cons_zero {α : Type} (a : α) (l : List α) (d : α) :
    nth (a :: l) 0 d = a := rfl

@[simp] theorem nth_cons_succ {α : Type} (a : α) (l : List α) (n : Nat) (d : α) :
    nth (a :: l) (n + 1) d = nth l n d := rfl

theorem nth_map {α β : Type} (f : α → β) (l : List α) (i : Nat) (d₁ : β) (d₂ : α)
    (h : i < l.length) : nth (l.map f) i d₁ = f (nth l i d₂) := by
  induction l generalizing i with
  | nil => simp at h
  | cons a t ih =>
    cases i with
    | zero => rfl
    | succ n => exact ih n (by simpa using h)

theorem nth_append_left {α : Type} (l₁ l₂ : List α) (i : Nat) (d : α)
    (h : i < l₁.length) : nth (l₁ ++ l₂) i d = nth l₁ i d := by
  induction l₁ generalizing i with
  | nil => simp at h
  | cons a t ih =>
    cases i with
    | zero => rfl
    | succ n => exact ih n (by simpa using h)

theorem nth_append_length {α : Type} (l : List α) (a : α) (d : α) :
    nth (l ++ [a]) l.length d = a := by
  induction l with
  | nil => rfl
  | cons b t ih => simpa using ih

theorem nth_range (n i : Nat) (d : Nat) (h : i < n) : nth (List.range n) i d = i := by
  induction n generalizing i with
  | zero => omega
  | succ m ih =>
    rw [List.range_succ]
    rcases Nat.lt_or_ge i m with hlt | hge
    · rw [nth_append_left _ _ _ _ (by simpa using hlt)]
      exact ih i hlt
    · have : i = m := by omega
      subst this
      have := nth_append_length (List.range i) i d
      simpa using this

theorem nth_replicate {α : Type} (n i : Nat) (a d : α) (h : i < n) :
    nth (List.replicate n a) i d = a := by
  induction n generalizing i with
  | zero => omega
  | succ m ih =>
    cases i with
    | zero => rfl
    | succ k => exact ih k (by omega)

theorem nth_mem {α : Type} (l : List α) (i : Nat) (d : α) (h : i < l.length) :
    nth l i d ∈ l := by
  induction l generalizing i with
  | nil => simp at h
  | cons a t ih =>
    cases i with
    | zero => exact List.mem_cons_self a t
    | succ n => exact List.mem_cons_of_mem a (ih n (by simpa using h))

/-! ### MD5 over byte lists

`add` selects a deterministic color for a label via
`md5(label.encode()).hexdigest()`; the full MD5 algorithm is embedded here
over `List Nat` byte lists, with 32-bit words represented as `Nat` reduced
`% 2 ^ 32`. -/

def w32 (n : Nat) : Nat := n % 4294967296

def rotl32 (x s : Nat) : Nat :=
  w32 (Nat.shiftLeft (w32 x) s) ||| Nat.shiftRight (w32 x) (32 - s)

def md5K : List Nat :=
  [3614090360, 3905402710, 606105819, 3250441966, 4118548399, 1200080426,
   2821735955, 4249261313, 1770035416, 2336552879, 4294925233, 2304563134,
   1804603682, 4254626195, 2792965006, 1236535329, 4129170786, 3225465664,
   643717713, 3921069994, 3593408605, 38016083, 3634488961, 3889429448,
   568446438, 3275163606, 4107603335, 1163531501, 2850285829, 4243563512,
   1735328473, 2368359562, 4294588738, 2272392833, 1839030562, 4259657740,
   2763975236, 1272893353, 4139469664, 3200236656, 681279174, 3936430074,
   3572445317, 76029189, 3654602809, 3873151461, 530742520, 3299628645,
   4096336452, 1126891415, 2878612391, 4237533241, 1700485571, 2399980690,
   4293915773, 2240044497, 1873313359, 4264355552, 2734768916, 1309151649,
   4149444226, 3174756917, 718787259, 3951481745]

def md5S : List Nat :=
  [7, 12, 17, 22, 7, 12, 17, 22, 7, 12, 17, 22, 7, 12, 17, 22,
   5, 9, 14, 20, 5, 9, 14, 20, 5, 9, 14, 20, 5, 9, 14, 20,
   4, 11, 16, 23, 4, 11, 16, 23, 4, 11, 16, 23, 4, 11, 16, 23,
   6, 10, 15, 21, 6, 10, 15, 21, 6, 10, 15, 21, 6, 10, 15, 21]

structure MD5State where
  a : Nat
  b : Nat
  c : Nat
  d : Nat

def leWord (bytes : List Nat) : Nat :=
  nth bytes 0 0 + 256 * nth bytes 1 0 + 65536 * nth bytes 2 0 +
    16777216 * nth bytes 3 0

def md5Words (block : List Nat) : List Nat :=
  (List.range 16).map fun i => leWord (block.drop (4 * i))

def md5Mix (i b c d : Nat) : Nat × Nat :=
  if i < 16 then ((b &&& c) ||| (Nat.xor b 4294967295 &&& d), i)
  else if i < 32 then ((d &&& b) ||| (Nat.xor d 4294967295 &&& c), (5 * i + 1) % 16)
  else if i < 48 then (Nat.xor (Nat.xor b c) d, (3 * i + 5) % 16)
  else (Nat.xor c (b ||| Nat.xor d 4294967295), (7 * i) % 16)

def md5Round (m : List Nat) (st : MD5State) (i : Nat) : MD5State :=
  let fg := md5Mix i st.b st.c st.d
  let f2 := w32 (fg.1 + st.a + nth md5K i 0 + nth m fg.2 0)
  ⟨st.d, w32 (st.b + rotl32 f2 (nth md5S i 0)), st.b, st.c⟩

def md5ProcessBlock (st : MD5State) (block : List Nat) : MD5State :=
  let m := md5Words block
  let r := (List.range 64).foldl (md5Round m) st
  ⟨w32 (st.a + r.a), w32 (st.b + r.b), w32 (st.c + r.c), w32 (st.d + r.d)⟩

def md5Pad (msg : List Nat) : List Nat :=
  msg ++ [128] ++ List.replicate ((119 - msg.length % 64) % 64) 0 ++
    (List.range 8).map fun i => msg.length * 8 / 256 ^ i % 256

def md5Chunks (l : List Nat) : List (List Nat) :=
  if h : l = [] then [] else l.take 64 :: md5Chunks (l.drop 64)
termination_by l.length
decreasing_by
  simp only [List.length_drop]
  have : 0 < l.length := List.length_pos.mpr h
  omega

def leBytes4 (n : Nat) : List Nat :=
  [n % 256, n / 256 % 256, n / 65536 % 256, n / 16777216 % 256]

def md5Digest (msg : List Nat) : List Nat :=
  let st := (md5Chunks (md5Pad msg)).foldl md5ProcessBlock
    ⟨1732584193, 4023233417, 2562383102, 271733878⟩
  leBytes4 st.a ++ leBytes4 st.b ++ leBytes4 st.c ++ leBytes4 st.d

/-- ASCII code of the hex digit for `n < 16` (lower case, as Python's
`hexdigest` produces). -/
def hexDigitCode (n : Nat) : Nat := if n < 10 then 48 + n else 87 + n

/-- Numeric value of an ASCII hex-digit code (inverse of `hexDigitCode`). -/
def hexCodeVal (c : Nat) : Nat := if 97 <= c then c - 87 else c - 48

/-- The `hexdigest()` of the MD5 of a byte list, modelled as the list of
ASCII codes of the hex string. -/
def md5HexCodes (msg : List Nat) : List Nat :=
  ((md5Digest msg).map fun b => [hexDigitCode (b / 16), hexDigitCode (b % 16)]).flatten

/-- Python's `int(hex_string, 16)` on a list of ASCII hex-digit codes. -/
def intOfHexCodes (cs : List Nat) : Nat :=
  cs.foldl (fun acc c => 16 * acc + hexCodeVal c) 0

/-- The MD5 digest read as one big-endian integer; this is the value
`int(md5(...).hexdigest(), 16)` that the spec describes as "the md5 hash
taken as an integer". -/
def md5NatBE (msg : List Nat) : Nat :=
  (md5Digest msg).foldl (fun acc b => 256 * acc + b) 0

/-! ### UTF-8 encoding

Python's `str.encode()` with the default encoding. -/

def utf8EncodeChar (c : Char) : List Nat :=
  let n := c.toNat
  if n < 128 then [n]
  else if n < 2048 then [192 + n / 64, 128 + n % 64]
  else if n < 65536 then
    [224 + n / 4096, 128 + n / 64 % 64, 128 + n % 64]
  else
    [240 + n / 262144, 128 + n / 4096 % 64, 128 + n / 64 % 64, 128 + n % 64]

def utf8Encode (s : String) : List Nat :=
  (s.data.map utf8EncodeChar).flatten

/-! ### Image buffers and Python values

An image buffer is a (height, width, channel) nested list of rationals;
numpy `uint8` buffers hold integer values in `[0, 255]`, and the float
arithmetic of the label compositing is carried out exactly over `Rat`.
A `Font` models the external `_FONT.getmask` rasterizer: label text to a
grayscale (height, width) mask. -/

abbrev Img : Type := List (List (List Rat))

abbrev Font : Type := String → List (List Rat)

/-- Python runtime values, as far as the argument checking of `add`
needs them. -/
inductive PyVal : Type where
  | none : PyVal
  | int (n : Int) : PyVal
  | float (q : Rat) : PyVal
  | str (s : String) : PyVal
  | ndarray (a : Img) : PyVal
deriving DecidableEq

/-- Python exceptions raised by the embedded code. -/
inductive PyErr : Type where
  | typeError (msg : String) : PyErr
  | valueError (msg : String) : PyErr
  | indexError (msg : String) : PyErr
deriving DecidableEq

def isNdarray : PyVal → Bool
  | .ndarray _ => true
  | _ => false

def isStr : PyVal → Bool
  | .str _ => true
  | _ => false

def ndarrayVal : PyVal → Img
  | .ndarray a => a
  | _ => []

def pyStrVal : PyVal → String
  | .str s => s
  | _ => ""

/-- Python truthiness (`if label:` / `and` / `not`).  `None` is falsy,
numbers are truthy iff nonzero, strings iff nonempty.  (CPython raises for
truthiness of a multi-element numpy array; arrays are modelled as truthy
iff nonempty, and no claim below evaluates the truthiness of an array.) -/
def pyTruthy : PyVal → Bool
  | .none => false
  | .int n => n != 0
  | .float q => q != 0
  | .str s => s != ""
  | .ndarray a => !a.isEmpty

/-- Parse a base-10 integer literal consisting of an optional sign and a
nonempty digit run, as Python's `int(str)` accepts (surrounding whitespace
and underscore separators are not modelled; no claim depends on them). -/
def digitsToNat : List Char → Option Nat
  | [] => Option.none
  | cs => cs.foldl (fun acc c =>
      match acc with
      | Option.none => Option.none
      | some a => if c.isDigit then some (10 * a + (c.toNat - 48)) else Option.none)
      (some 0)

def parseIntStr (s : String) : Option Int :=
  match s.data with
  | '-' :: rest => (digitsToNat rest).map fun n => -(n : Int)
  | '+' :: rest => (digitsToNat rest).map fun n => (n : Int)
  | cs => (digitsToNat cs).map fun n => (n : Int)

/-- Rational truncation toward zero, as Python's `int(float)`. -/
def ratTrunc (q : Rat) : Int := q.num / (q.den : Int)

/-- Python's `int(x)` on a value: succeeds on numbers and numeric strings,
raises `ValueError` on non-numeric strings and `TypeError` on other
types. -/
def intConvPy : PyVal → Except PyErr Int
  | .int n => .ok n
  | .float q => .ok (ratTrunc q)
  | .str s =>
      match parseIntStr s with
      | some n => .ok n
      | Option.none => .error (.valueError ("invalid literal for int() with base 10"))
  | .none => .error (.typeError ("int() argument must be a string or a number, not NoneType"))
  | .ndarray _ => .error (.typeError ("only size-1 arrays can be converted to Python scalars"))

/-- The `except ValueError:` handler around the coordinate conversion of
`add`: a `ValueError` is re-raised as
`TypeError("'left', 'top', 'right' & 'bottom' must be a number")`; any
other exception (a `TypeError` from `int()` itself) propagates
unchanged. -/
def convErr (e : PyErr) : PyErr :=
  match e with
  | .valueError _ =>
      .typeError ("\x27left\x27, \x27top\x27, \x27right\x27 & \x27bottom\x27 must be a number")
  | e => e

/-- The coordinate conversion of `add`: the tuple
`int(left), int(top), int(right), int(bottom)` evaluated left to right
inside the `try:` block — the first exception wins and goes through the
handler `convErr`. -/
def convCoords (l t r b : PyVal) : Except PyErr (Int × Int × Int × Int) :=
  match intConvPy l with
  | .error e => .error (convErr e)
  | .ok li =>
    match intConvPy t with
    | .error e => .error (convErr e)
    | .ok ti =>
      match intConvPy r with
      | .error e => .error (convErr e)
      | .ok ri =>
        match intConvPy b with
        | .error e => .error (convErr e)
        | .ok bi => .ok (li, ti, ri, bi)

/-! ### The fixed 15-entry color palette

`_COLOR_NAME_TO_RGB` maps a color name to a pair of RGB triples:
the box/background color and a contrasting text color. -/

def _COLOR_NAME_TO_RGB : List (String × (List Rat × List Rat)) :=
  [("navy", ([0, 38, 63], [119, 193, 250])),
   ("blue", ([0, 120, 210], [173, 220, 252])),
   ("aqua", ([115, 221, 252], [0, 76, 100])),
   ("teal", ([15, 205, 202], [0, 0, 0])),
   ("olive", ([52, 153, 114], [25, 58, 45])),
   ("green", ([0, 204, 84], [15, 64, 31])),
   ("lime", ([1, 255, 127], [0, 102, 53])),
   ("yellow", ([255, 216, 70], [103, 87, 28])),
   ("orange", ([255, 125, 57], [104, 48, 19])),
   ("red", ([255, 47, 65], [131, 0, 17])),
   ("maroon", ([135, 13, 75], [239, 117, 173])),
   ("fuchsia", ([246, 0, 184], [103, 0, 78])),
   ("purple", ([179, 17, 193], [241, 167, 244])),
   ("gray", ([168, 168, 168], [0, 0, 0])),
   ("silver", ([220, 220, 220], [0, 0, 0]))]

/-- `_COLOR_NAMES = list(_COLOR_NAME_TO_RGB)`: the palette names in
insertion order. -/
def _COLOR_NAMES : List String := _COLOR_NAME_TO_RGB.map Prod.fst

/-- Module constant `_DEFAULT_COLOR_NAME`; the fallback that would use it
is commented out in the source, so no code path reads it. -/
def _DEFAULT_COLOR_NAME : String := "green"

def lookupColor (c : String) : Option (List Rat × List Rat) :=
  _COLOR_NAME_TO_RGB.lookup c

/-- `_rgb_to_bgr(color) = list(color)`: an identity on the channel list
(despite its name). -/
def _rgb_to_bgr (color : List Rat) : List Rat := color

/-- The two drawing colors for a palette name:
`[_rgb_to_bgr(item) for item in _COLOR_NAME_TO_RGB[color]]`. -/
def colorPair (c : String) : List Rat × List Rat :=
  match lookupColor c with
  | some p => (_rgb_to_bgr p.1, _rgb_to_bgr p.2)
  | Option.none => ([], [])

/-- The auto color selection of `add` for a (truthy, string) label:
`hex_digest = md5(label.encode()).hexdigest()`;
`color_index = int(hex_digest, 16) % len(_COLOR_NAME_TO_RGB)`;
`color = _COLOR_NAMES[color_index]`. -/
def autoColorName (label : String) : String :=
  let hex_digest := md5HexCodes (utf8Encode label)
  let color_index := intOfHexCodes hex_digest % _COLOR_NAME_TO_RGB.length
  nth _COLOR_NAMES color_index ("")

/-- The color-resolution step of `add`:
`if label and not color: color = _COLOR_NAMES[...]` (otherwise the color
argument is passed through unchanged). -/
def resolvedColor (label color : PyVal) : PyVal :=
  if pyTruthy label && !pyTruthy color then .str (autoColorName (pyStrVal label))
  else color

/-! ### Drawing primitives

`cv2.rectangle` and numpy slice assignment, modelled from their documented
semantics.  OpenCV fills/strokes the rectangle whose two opposite corners
are the given points, both corners included, clipped to the image; a
positive `thickness` strokes a band of about `thickness / 2` pixels around
the border.  Numpy basic slices `a[s:e]` wrap a negative bound once
(`s + len`), clamp to `[0, len]`, and slice assignment requires the source
shape to equal the selected shape, else it raises a broadcast
`ValueError`. -/

def mapPix (f : Int → Int → List Rat → List Rat) (img : Img) : Img :=
  img.mapIdx fun r row => row.mapIdx fun c p => f (r : Int) (c : Int) p

def inClosedRect (xl xr yt yb : Int) (r c : Int) : Bool :=
  xl <= c && c <= xr && yt <= r && r <= yb

def cvRectangle (img : Img) (x1 y1 x2 y2 : Int) (color : List Rat)
    (thickness : Int) : Img :=
  let xl := min x1 x2
  let xr := max x1 x2
  let yt := min y1 y2
  let yb := max y1 y2
  if thickness < 0 then
    mapPix (fun r c p => if inClosedRect xl xr yt yb r c then color else p) img
  else
    let h := thickness / 2
    mapPix (fun r c p =>
      if inClosedRect (xl - h) (xr + h) (yt - h) (yb + h) r c &&
          !inClosedRect (xl + h + 1) (xr - h - 1) (yt + h + 1) (yb - h - 1) r c
      then color else p) img

/-- Resolve one bound of a basic numpy slice over an axis of length
`len`. -/
def sliceIdx (i : Int) (len : Nat) : Nat :=
  if i < 0 then ((len : Int) + i).toNat.min len else i.toNat.min len

/-- Truncation of a rational to an integral rational, toward zero: the
effect of storing a float into a `uint8` buffer (values stay in
`[0, 255]` in all uses here, so no wrap-around is modelled). -/
def truncRat (q : Rat) : Rat := ((ratTrunc q : Int) : Rat)

def imgWidth (img : Img) : Nat := (img.headD []).length

/-- Numpy slice assignment
`image[top:bottom, left:right, :] = src` on an (H, W, 3) buffer: raises a
broadcast `ValueError` unless the selected region's shape equals the shape
of `src`; otherwise stores `src` (cast to the buffer's dtype) into the
region. -/
def blit (img : Img) (top bottom left right : Int) (src : Img) :
    Except PyErr Img :=
  let h := img.length
  let w := imgWidth img
  let r0 := sliceIdx top h
  let r1 := (sliceIdx bottom h).max r0
  let c0 := sliceIdx left w
  let c1 := (sliceIdx right w).max c0
  if r1 - r0 = src.length && c1 - c0 = imgWidth src then
    .ok (mapPix (fun r c p =>
      if (r0 : Int) <= r && r < (r1 : Int) && (c0 : Int) <= c && c < (c1 : Int) then
        (nth (nth src (r - r0).toNat []) (c - c0).toNat []).map truncRat
      else p) img)
  else
    .error (.valueError ("could not broadcast input array into slice"))

/-! ### Label raster colorization (`_color_image`, `_get_label_image`) -/

/-- `_color_image(image, font_color, background_color)`:
`background_color + (font_color - background_color) * image / 255`,
numpy scalar-array broadcasting applied pointwise to the mask. -/
def _color_image (image : List (List Rat)) (font_color background_color : Rat) :
    List (List Rat) :=
  image.map fun row => row.map fun v =>
    background_color + (font_color - background_color) * v / 255

/-- Numpy `transpose(1, 2, 0)` on a (C, H, W) stack of channel planes,
yielding (H, W, C). -/
def transpose120 (a : List (List (List Rat))) : List (List (List Rat)) :=
  (List.range (nth a 0 []).length).map fun i =>
    (List.range (nth (nth a 0 []) 0 []).length).map fun j =>
      a.map fun ch => nth (nth ch i []) j 0

/-- `_get_label_image(text, font_color_tuple_bgr, background_color_tuple_bgr)`:
rasterize `text` with the (external) font into a grayscale mask, colorize
each channel with `_color_image`, stack the channels and transpose to
(H, W, C). -/
def _get_label_image (font : Font) (text : String)
    (font_color_tuple_bgr background_color_tuple_bgr : List Rat) : Img :=
  let bw_image := font text
  let image := (font_color_tuple_bgr.zip background_color_tuple_bgr).map
    fun p => _color_image bw_image p.1 p.2
  transpose120 image

/-! ### Label rectangle geometry (`add`, lines 428-452) -/

structure LabelGeom where
  rectangle_left : Int
  rectangle_top : Int
  rectangle_right : Int
  rectangle_bottom : Int
  label_left : Int
  label_top : Int
  label_right : Int
  label_bottom : Int
deriving DecidableEq

/-- The label-background rectangle and glyph-blit coordinates computed by
`add` for a labeled box, as a function of the box's `left`/`top`, the
image width, and the label raster's height and width.  The `if` mirrors
the flip applied when the default placement (label bottom = box top) would
start above row 0. -/
def labelGeom (left top image_width : Int) (label_height label_width : Nat) :
    LabelGeom :=
  let rectangle_height : Int := 1 + (label_height : Int)
  let rectangle_width : Int := 1 + (label_width : Int)
  let rectangle_bottom := top
  let rectangle_left := max 0 (min (left - 1) (image_width - rectangle_width))
  let rectangle_top := rectangle_bottom - rectangle_height
  let rectangle_right := rectangle_left + rectangle_width
  let label_top := rectangle_top + 1
  if rectangle_top < 0 then
    let rectangle_top2 := top
    let rectangle_bottom2 := rectangle_top2 + (label_height : Int) + 1
    let label_top2 := rectangle_top2
    let label_left := rectangle_left + 1
    let label_bottom := label_top2 + (label_height : Int)
    let label_right := label_left + (label_width : Int)
    ⟨rectangle_left, rectangle_top2, rectangle_right, rectangle_bottom2,
      label_left, label_top2, label_right, label_bottom⟩
  else
    let label_left := rectangle_left + 1
    let label_bottom := label_top + (label_height : Int)
    let label_right := label_left + (label_width : Int)
    ⟨rectangle_left, rectangle_top, rectangle_right, rectangle_bottom,
      label_left, label_top, label_right, label_bottom⟩

/-! ### The drawing body of `add` (lines 423-459) -/

/-- The pixel-writing part of `add`, after all argument checks passed:
stroke the box outline (thickness 15), and if the label is truthy, fill
the label-background rectangle and blit the colorized glyph raster into
it.  Returns the buffer state reached together with the error raised by
the slice assignment, if any (the only drawing step that can raise). -/
def addDraw (font : Font) (img : Img) (left top right bottom : Int)
    (label : Option String) (pair : List Rat × List Rat) : Img × Option PyErr :=
  let color := pair.1
  let color_text := pair.2
  let img1 := cvRectangle img left top right bottom color 15
  match label with
  | Option.none => (img1, Option.none)
  | some lab =>
    let image_width := imgWidth img1
    let label_image := _get_label_image font lab color_text color
    let label_height := label_image.length
    let label_width := imgWidth label_image
    let g := labelGeom left top (image_width : Int) label_height label_width
    let img2 := cvRectangle img1 g.rectangle_left g.rectangle_top
      g.rectangle_right g.rectangle_bottom color (-1)
    match blit img2 g.label_top g.label_bottom g.label_left g.label_right
      label_image with
    | .ok img3 => (img3, Option.none)
    | .error e => (img2, some e)

/-- The label value seen by the drawing phase: `if label:` — the label is
drawn only when truthy, and at that point a truthy label is necessarily a
string. -/
def truthyLabelOpt (label : PyVal) : Option String :=
  if pyTruthy label then some (pyStrVal label) else Option.none

instance {ε α : Type} [DecidableEq ε] [DecidableEq α] :
    DecidableEq (Except ε α) := fun a b =>
  match a, b with
  | .error e, .error f =>
      match decEq e f with
      | isTrue h => isTrue (by rw [h])
      | isFalse h => isFalse fun hh => by cases hh; exact h rfl
  | .ok x, .ok y =>
      match decEq x y with
      | isTrue h => isTrue (by rw [h])
      | isFalse h => isFalse fun hh => by cases hh; exact h rfl
  | .error _, .ok _ => isFalse fun hh => by cases hh
  | .ok _, .error _ => isFalse fun hh => by cases hh

/-! ### The single-box annotator `add` -/

/-- Result of a call to `add`: the state of the caller's `image` argument
after the call (the buffer is mutated in place, so the caller observes
this state through its own reference), and the outcome — the value
returned, or the exception raised. -/
structure AddResult where
  imageState : PyVal
  outcome : Except PyErr PyVal
deriving DecidableEq

/-- The full `add(image, left, top, right, bottom, label=None, color=None)`:
argument checking, color resolution, and drawing, in source order.  The
function body has no `return` statement, so a successful call returns
`None`. -/
def add (font : Font) (image l t r b label color : PyVal) : AddResult :=
  if !isNdarray image then
    ⟨image, .error (.typeError ("\x27image\x27 parameter must be a numpy.ndarray"))⟩
  else
    match convCoords l t r b with
    | .error e => ⟨image, .error e⟩
    | .ok (li, ti, ri, bi) =>
      if pyTruthy label && !isStr label then
        ⟨image, .error (.typeError ("\x27label\x27 must be a str"))⟩
      else
        let color2 := resolvedColor label color
        if !isStr color2 then
          ⟨image, .error (.typeError ("\x27color\x27 must be a str"))⟩
        else
          match lookupColor (pyStrVal color2) with
          | Option.none =>
              ⟨image, .error (.valueError (("\x27color\x27 must be one of ") ++
                String.intercalate (", ") _COLOR_NAMES))⟩
          | some pr =>
            let dr := addDraw font (ndarrayVal image) li ti ri bi
              (truthyLabelOpt label) (_rgb_to_bgr pr.1, _rgb_to_bgr pr.2)
            match dr.2 with
            | Option.none => ⟨.ndarray dr.1, .ok .none⟩
            | some e => ⟨.ndarray dr.1, .error e⟩

/-! ### Segmentation decoding (`decode_segmap`) -/

def zerosImg (h w : Nat) : Img :=
  List.replicate h (List.replicate w [0, 0, 0])

/-- One iteration of the decode loop: `select_mask = labels == id;`
`rgb[select_mask, :] = color / 255.0` — overwrite every pixel whose class
id equals `id` with the (already divided) color. -/
def maskAssign (labels : List (List Nat)) (id : Nat) (col : List Rat)
    (rgb : Img) : Img :=
  (List.range rgb.length).map fun r =>
    (List.range (nth rgb r []).length).map fun c =>
      if nth (nth labels r []) c (id + 1) == id then col
      else nth (nth rgb r []) c []

/-- The decode loop of `decode_segmap` over a given id-to-RGB-triple
mapping (the mapping is a parameter: `CITYSCAPES_COLOR_MAPPING` is
imported from a different module of the repository and is treated as an
external collaborator, as the spec's scope section states). -/
def decode_segmapCore (color_mapping : List (Nat × List Rat))
    (labels : List (List Nat)) : Img :=
  let h := labels.length
  let w := (labels.headD []).length
  color_mapping.foldl
    (fun rgb p => maskAssign labels p.1 (p.2.map fun x => x / 255) rgb)
    (zerosImg h w)

/-- `decode_segmap(labels, dataset)`: only `"cityscapes"` selects a color
mapping; any other dataset name raises `ValueError`. -/
def decode_segmap (color_mapping : List (Nat × List Rat))
    (labels : List (List Nat)) (dataset : String) : Except PyErr Img :=
  if dataset == "cityscapes" then .ok (decode_segmapCore color_mapping labels)
  else .error (.valueError (("Dataset \x27") ++ dataset ++ ("\x27 is not supported.")))

/-! ### Heap of image buffers

`add` mutates its argument in place while `plot_bboxes` copies first; to
make those frame effects provable, buffers live in an explicit heap
(a list of images addressed by index), allocation appends, and the PIL
operations `image.copy()` / `np.array(...)` / `Image.fromarray(...)`
each produce a fresh buffer. -/

abbrev Heap : Type := List Img

def readH (heap : Heap) (ref : Nat) : Img := nth heap ref []

def writeH (heap : Heap) (ref : Nat) (img : Img) : Heap := heap.set ref img

def alloc (heap : Heap) (img : Img) : Heap × Nat := (heap ++ [img], heap.length)

/-- A detection box as `plot_bboxes` consumes it: `BBox2D` carries a
top-left corner, a size, an integer label index into the label mapping,
and a confidence score. -/
structure BBox2D where
  x : Int
  y : Int
  w : Int
  h : Int
  label : Nat
  score : Rat

/-- Python `"{v: .2f}"`: render with two decimal places, rounding
half-to-even, with a leading space for nonnegative values (the source
formats `box.score * 100` this way; the binary-float rounding of CPython
is abstracted to exact rational rounding). -/
def format2f (q : Rat) : String :=
  let a : Rat := |q|
  let n : Int := ⌊a * 100⌋
  let frac : Rat := a * 100 - (n : Rat)
  let r : Int :=
    if frac > 1 / 2 then n + 1
    else if frac < 1 / 2 then n
    else if n % 2 = 0 then n else n + 1
  let rn : Nat := r.toNat
  (if q < 0 then ("-") else (" ")) ++ toString (rn / 100) ++ (".") ++
    (if rn % 100 < 10 then ("0") else ("")) ++ toString (rn % 100)

/-- Whether the `colors` argument of `plot_bboxes` is falsy
(`if not colors:`): absent or an empty list. -/
def colorsFalsy : Option (List PyVal) → Bool
  | Option.none => true
  | some l => l.isEmpty

def errOf {α : Type} : Except PyErr α → Option PyErr
  | .ok _ => Option.none
  | .error e => some e

/-- One iteration of the `plot_bboxes` loop, as a pure image transform:
resolve the display label `label_mappings.iloc[box.label]["Label Name"]`
(`IndexError` when out of range), then either auto-color
(`add(..., label, color=None)`) or use `colors[i]` with the score
appended to the label. -/
def plotStep (font : Font) (label_mappings : List String)
    (colors : Option (List PyVal)) (i : Nat) (box : BBox2D) (img : Img) :
    Img × Option PyErr :=
  let left := box.x
  let top := box.y
  let right := box.x + box.w
  let bottom := box.y + box.h
  match label_mappings[box.label]? with
  | Option.none => (img, some (.indexError ("single positional indexer is out-of-bounds")))
  | some name =>
    if colorsFalsy colors then
      let res := add font (.ndarray img) (.int left) (.int top) (.int right)
        (.int bottom) (.str name) .none
      (ndarrayVal res.imageState, errOf res.outcome)
    else
      let lab := name ++ (": ") ++ format2f (box.score * 100) ++ ("%")
      match (colors.getD [])[i]? with
      | Option.none => (img, some (.indexError ("list index out of range")))
      | some col =>
        let res := add font (.ndarray img) (.int left) (.int top) (.int right)
          (.int bottom) (.str lab) col
        (ndarrayVal res.imageState, errOf res.outcome)

/-- The `plot_bboxes` loop operating in place on the heap buffer `ref`. -/
def drawLoop (font : Font) (label_mappings : List String)
    (colors : Option (List PyVal)) (boxes : List BBox2D) (i : Nat)
    (heap : Heap) (ref : Nat) : Heap × Option PyErr :=
  match boxes with
  | [] => (heap, Option.none)
  | box :: rest =>
    let st := plotStep font label_mappings colors i box (readH heap ref)
    let heap2 := writeH heap ref st.1
    match st.2 with
    | some e => (heap2, some e)
    | Option.none => drawLoop font label_mappings colors rest (i + 1) heap2 ref

/-- The `plot_bboxes` loop as a pure function on an image value. -/
def drawLoopPure (font : Font) (label_mappings : List String)
    (colors : Option (List PyVal)) (boxes : List BBox2D) (i : Nat)
    (img : Img) : Img × Option PyErr :=
  match boxes with
  | [] => (img, Option.none)
  | box :: rest =>
    let st := plotStep font label_mappings colors i box img
    match st.2 with
    | some e => (st.1, some e)
    | Option.none => drawLoopPure font label_mappings colors rest (i + 1) st.1

/-- `plot_bboxes(image, boxes, label_mappings, colors, box_line_width,
font_scale)`: copy the caller's image into a fresh buffer
(`combined = image.copy()`; `combined = np.array(combined)`), draw every
box into the copy with `add`, and return `Image.fromarray(combined)` as a
fresh image object.  (`box_line_width` and `font_scale` are accepted but
only used by commented-out code.)  Returns the final heap and the
reference of the new image, or the exception propagated from the loop. -/
def plot_bboxes (font : Font) (heap : Heap) (imageRef : Nat)
    (boxes : List BBox2D) (label_mappings : List String)
    (colors : Option (List PyVal)) (box_line_width : Int := 1)
    (font_scale : Int := 50) : Heap × Except PyErr Nat :=
  let a1 := alloc heap (readH heap imageRef)
  let res := drawLoop font label_mappings colors boxes 0 a1.1 a1.2
  match res.2 with
  | some e => (res.1, .error e)
  | Option.none =>
    let a2 := alloc res.1 (readH res.1 a1.2)
    (a2.1, .ok a2.2)

/-! ### Helper lemmas: hexdigest as big-endian integer -/

theorem hexCodeVal_hexDigitCode (x : Nat) (h : x < 16) :
    hexCodeVal (hexDigitCode x) = x := by
  unfold hexDigitCode hexCodeVal
  split <;> split <;> omega

theorem leBytes4_lt (n b : Nat) (h : b ∈ leBytes4 n) : b < 256 := by
  simp only [leBytes4, List.mem_cons, List.not_mem_nil, or_false] at h
  rcases h with h | h | h | h <;> subst h <;> exact Nat.mod_lt _ (by decide)

theorem md5Digest_lt (msg : List Nat) (b : Nat) (h : b ∈ md5Digest msg) :
    b < 256 := by
  simp only [md5Digest, List.mem_append] at h
  rcases h with ((h | h) | h) | h <;> exact leBytes4_lt _ _ h

theorem hexFold (bytes : List Nat) (acc : Nat) (h : ∀ b ∈ bytes, b < 256) :
    ((bytes.map fun b => [hexDigitCode (b / 16), hexDigitCode (b % 16)]).flatten).foldl
        (fun a c => 16 * a + hexCodeVal c) acc =
      bytes.foldl (fun a b => 256 * a + b) acc := by
  induction bytes generalizing acc with
  | nil => rfl
  | cons b rest ih =>
    have hb : b < 256 := h b (List.mem_cons_self b rest)
    have hdiv : b / 16 < 16 := by omega
    have hmod : b % 16 < 16 := Nat.mod_lt _ (by decide)
    simp only [List.map_cons, List.flatten_cons, List.foldl_append, List.foldl_cons,
      List.foldl_nil]
    rw [hexCodeVal_hexDigitCode _ hdiv, hexCodeVal_hexDigitCode _ hmod]
    rw [ih _ (fun x hx => h x (List.mem_cons_of_mem b hx))]
    congr 1
    have := Nat.div_add_mod b 16
    omega

theorem intOfHexCodes_md5 (msg : List Nat) :
    intOfHexCodes (md5HexCodes msg) = md5NatBE msg :=
  hexFold (md5Digest msg) 0 (md5Digest_lt msg)

/-- C2 — For a nonempty label string passed with no explicit color, the
color-resolution step of `add` selects the palette name at index
`(md5 of the UTF-8 bytes of the label, read as an integer) mod (palette
size)`.  `resolvedColor` is a pure function of the label string, so two
calls with the same label — in any two process runs — resolve to the same
name (the embedded MD5 is the fixed MD5 function, keyed to nothing). -/
theorem auto_color_is_md5_mod_palette (s : String) (hs : s ≠ "") :
    resolvedColor (.str s) .none =
      .str (nth _COLOR_NAMES (md5NatBE (utf8Encode s) % _COLOR_NAME_TO_RGB.length) ("")) := by
  have hbne : (s != "") = true := by simp [hs]
  simp only [resolvedColor, pyTruthy, pyStrVal, hbne, Bool.not_false, Bool.and_true,
    if_true, autoColorName, intOfHexCodes_md5]

/-- Witness for C2 at the label `"car"`. -/
theorem auto_color_is_md5_mod_palette_car :
    resolvedColor (.str ("car")) .none =
      .str (nth _COLOR_NAMES
        (md5NatBE (utf8Encode ("car")) % _COLOR_NAME_TO_RGB.length) ("")) :=
  auto_color_is_md5_mod_palette ("car") (by decide)

/-! ### Helper lemmas for the `add` pipeline -/

def pyOfOptStr : Option String → PyVal
  | Option.none => .none
  | some s => .str s

/-- The two errors `add` can raise about its `color` argument. -/
def isColorError (e : PyErr) : Bool :=
  e == .typeError ("\x27color\x27 must be a str") ||
    e == .valueError (("\x27color\x27 must be one of ") ++
      String.intercalate (", ") _COLOR_NAMES)

theorem convCoords_int (l t r b : Int) :
    convCoords (.int l) (.int t) (.int r) (.int b) = .ok (l, t, r, b) := rfl

theorem palette_names_ne_empty : ∀ c ∈ _COLOR_NAMES, c ≠ "" := by decide

theorem lookup_isSome_of_mem_keys {β : Type} (l : List (String × β)) (c : String)
    (h : c ∈ l.map Prod.fst) : (l.lookup c).isSome = true := by
  induction l with
  | nil => simp at h
  | cons p rest ih =>
    simp only [List.map_cons, List.mem_cons] at h
    rcases h with h | h
    · simp [List.lookup, h]
    · simp only [List.lookup]
      split
      · rfl
      · exact ih h

theorem blit_err (img : Img) (top bottom left right : Int) (src : Img) (e : PyErr)
    (h : blit img top bottom left right src = .error e) :
    e = .valueError ("could not broadcast input array into slice") := by
  simp only [blit] at h
  split at h
  · exact absurd h (by simp)
  · cases h
    rfl

theorem addDraw_err (font : Font) (img : Img) (left top right bottom : Int)
    (label : Option String) (pair : List Rat × List Rat) (e : PyErr)
    (h : (addDraw font img left top right bottom label pair).2 = some e) :
    e = .valueError ("could not broadcast input array into slice") := by
  unfold addDraw at h
  cases label with
  | none => simp at h
  | some lab =>
    simp only at h
    split at h
    · simp at h
    · simp only [Option.some.injEq] at h
      subst h
      exact blit_err _ _ _ _ _ _ _ (by assumption)

/-- When the argument checks of `add` all pass (image is an array, the
coordinates are integers, the label check and color resolution succeed and
the color is a palette key), `add` reduces to its drawing body. -/
theorem add_reaches_draw (font : Font) (img : Img) (l t r b : Int)
    (label color : PyVal) (c : String) (pr : List Rat × List Rat)
    (hlab : (pyTruthy label && !isStr label) = false)
    (hres : resolvedColor label color = .str c)
    (hlook : lookupColor c = some pr) :
    add font (.ndarray img) (.int l) (.int t) (.int r) (.int b) label color =
      match addDraw font img l t r b (truthyLabelOpt label)
          (_rgb_to_bgr pr.1, _rgb_to_bgr pr.2) with
      | (i2, Option.none) => ⟨.ndarray i2, .ok .none⟩
      | (i2, some e) => ⟨.ndarray i2, .error e⟩ := by
  unfold add
  rw [convCoords_int]
  have hnd : isNdarray (PyVal.ndarray img) = true := rfl
  have hstr : isStr (PyVal.str c) = true := rfl
  simp only [hnd, Bool.not_true, Bool.false_eq_true, if_false]
  rw [hlab]
  simp only [Bool.false_eq_true, if_false]
  rw [hres]
  simp only [hstr, Bool.not_true, Bool.false_eq_true, if_false, pyStrVal, hlook,
    ndarrayVal]
  rcases addDraw font img l t r b (truthyLabelOpt label)
      (_rgb_to_bgr pr.1, _rgb_to_bgr pr.2) with ⟨i2, _ | e⟩ <;> rfl

theorem optStr_label_check (lab : Option String) :
    (pyTruthy (pyOfOptStr lab) && !isStr (pyOfOptStr lab)) = false := by
  cases lab <;> simp [pyOfOptStr, pyTruthy, isStr]

theorem resolvedColor_palette (lab : Option String) (c : String) (hc : c ≠ "") :
    resolvedColor (pyOfOptStr lab) (.str c) = .str c := by
  unfold resolvedColor
  have : pyTruthy (PyVal.str c) = true := by simp [pyTruthy, hc]
  simp [this]

/-- C5 — Palette closure: (a) the auto color resolved for any label string
is one of the 15 palette names (`_COLOR_NAMES`); (b) a call to `add` whose
explicit `color` argument is any of the 15 palette names never raises a
color-related error — the only error such a call can still raise is the
numpy broadcast error from blitting a label raster that does not fit
inside the image. -/
theorem palette_closure :
    (∀ s : String, autoColorName s ∈ _COLOR_NAMES) ∧
      (∀ (font : Font) (img : Img) (l t r b : Int) (lab : Option String)
        (c : String) (e : PyErr), c ∈ _COLOR_NAMES →
        (add font (.ndarray img) (.int l) (.int t) (.int r) (.int b)
            (pyOfOptStr lab) (.str c)).outcome = .error e →
        isColorError e = false) := by
  constructor
  · intro s
    apply nth_mem
    have h15 : _COLOR_NAMES.length = _COLOR_NAME_TO_RGB.length := by
      simp [_COLOR_NAMES]
    rw [h15]
    exact Nat.mod_lt _ (by decide)
  · intro font img l t r b lab c e hc houtcome
    have hcne : c ≠ "" := palette_names_ne_empty c hc
    have hlk : (lookupColor c).isSome = true := lookup_isSome_of_mem_keys _ _ hc
    rcases hlook : lookupColor c with _ | pr
    · rw [hlook] at hlk
      simp at hlk
    · rw [add_reaches_draw font img l t r b (pyOfOptStr lab) (.str c) c pr
        (optStr_label_check lab) (resolvedColor_palette lab c hcne) hlook] at houtcome
      rcases hdr : addDraw font img l t r b (truthyLabelOpt (pyOfOptStr lab))
          (_rgb_to_bgr pr.1, _rgb_to_bgr pr.2) with ⟨i2, _ | e'⟩
      · rw [hdr] at houtcome
        simp at houtcome
      · rw [hdr] at houtcome
        simp only [Except.error.injEq] at houtcome
        have he : e' = .valueError ("could not broadcast input array into slice") :=
          addDraw_err _ _ _ _ _ _ _ _ e' (by rw [hdr])
        rw [← houtcome, he]
        decide

/-- Witness for C5: the auto color of `"car"` is a palette name, and a
concrete `add` call with explicit color `"navy"` whose label raster cannot
fit the 1-by-1 image raises only the (non-color-related) broadcast
error. -/
theorem palette_closure_witness :
    autoColorName ("car") ∈ _COLOR_NAMES ∧
      isColorError (.valueError ("could not broadcast input array into slice")) = false :=
  ⟨palette_closure.1 ("car"),
    palette_closure.2 (fun _ => [[0, 0]]) [[[0, 0, 0]]] 0 0 0 0 (some ("x"))
      ("navy") (.valueError ("could not broadcast input array into slice"))
      (by decide) (by decide)⟩

/-! ### Claims C3 and C9: label rectangle geometry -/

/-- C3 (amended) — Horizontal bounds: provided the label-background
rectangle fits the image horizontally (`1 + label_width <= image_width`),
its left edge is clamped at or right of column 0 and its right edge at or
left of `image_width`.  Vertical bounds: provided the box's `top` is
nonnegative, the rectangle's top row and the blit's top row are
nonnegative, and whenever the default placement (label bottom = box top)
would start above row 0, the placement flips so that both the rectangle
and the glyph blit start exactly at `top`. -/
theorem labelGeom_bounds (left top image_width : Int) (lh lw : Nat) :
    (1 + (lw : Int) <= image_width →
      0 <= (labelGeom left top image_width lh lw).rectangle_left ∧
        (labelGeom left top image_width lh lw).rectangle_right <= image_width) ∧
      (0 <= top →
        0 <= (labelGeom left top image_width lh lw).rectangle_top ∧
          0 <= (labelGeom left top image_width lh lw).label_top ∧
          (top - (1 + (lh : Int)) < 0 →
            (labelGeom left top image_width lh lw).rectangle_top = top ∧
              (labelGeom left top image_width lh lw).label_top = top)) := by
  have hmax : ∀ hw : 1 + (lw : Int) <= image_width,
      (0 : Int) ⊔ ((left - 1) ⊓ (image_width - (1 + (lw : Int)))) <=
        image_width - (1 + (lw : Int)) :=
    fun hw => max_le (by omega) (min_le_right _ _)
  simp only [labelGeom]
  split
  case isTrue h =>
    dsimp only
    refine ⟨fun hw => ⟨le_max_left 0 _, ?_⟩, fun ht => ⟨ht, ht, fun _ => ⟨rfl, rfl⟩⟩⟩
    have := hmax hw
    omega
  case isFalse h =>
    dsimp only
    refine ⟨fun hw => ⟨le_max_left 0 _, ?_⟩,
      fun ht => ⟨by omega, by omega, fun hc => absurd hc h⟩⟩
    have := hmax hw
    omega

/-- Counterexample to C3 as stated: with a 3-pixel-wide image and a label
raster of width 5, the clamped label rectangle still ends at column 6 > 3;
and with `top = -5`, even the flipped placement puts the blit's top row at
-5, a negative row coordinate. -/
theorem labelGeom_bounds_counterexample :
    ¬ (labelGeom 10 100 3 2 5).rectangle_right <= (3 : Int) ∧
      (labelGeom 5 (-5) 100 2 3).label_top < 0 := by
  constructor
  · decide
  · decide

/-- Witness for C3 at a concrete flipped, in-bounds configuration. -/
theorem labelGeom_bounds_witness :
    ((0 : Int) <= (labelGeom 10 2 200 5 20).rectangle_left ∧
        (labelGeom 10 2 200 5 20).rectangle_right <= 200) ∧
      (0 <= (labelGeom 10 2 200 5 20).rectangle_top ∧
        0 <= (labelGeom 10 2 200 5 20).label_top) ∧
      ((labelGeom 10 2 200 5 20).rectangle_top = 2 ∧
        (labelGeom 10 2 200 5 20).label_top = 2) :=
  ⟨(labelGeom_bounds 10 2 200 5 20).1 (by decide),
    ⟨((labelGeom_bounds 10 2 200 5 20).2 (by decide)).1,
      ((labelGeom_bounds 10 2 200 5 20).2 (by decide)).2.1⟩,
    ((labelGeom_bounds 10 2 200 5 20).2 (by decide)).2.2 (by decide)⟩

/-- C9 (amended) — Inset of the glyph blit inside the filled
label-background rectangle, in the conventions of the code (the fill by
`cv2.rectangle(..., -1)` covers both corner columns/rows inclusively; the
blit `image[label_top:label_bottom, label_left:label_right]` covers rows
`label_top..label_bottom - 1` and columns `label_left..label_right - 1`):
the blit happens after the fill and is always inset 1 pixel from the left
and right edges of the fill; in the default placement it is inset 1 pixel
from the top and bottom; in the flipped placement it is flush with the
rectangle's top row (no inset) and leaves two filled rows at the
bottom. -/
theorem labelGeom_insets (left top image_width : Int) (lh lw : Nat) :
    (labelGeom left top image_width lh lw).label_left =
        (labelGeom left top image_width lh lw).rectangle_left + 1 ∧
      (labelGeom left top image_width lh lw).label_right =
        (labelGeom left top image_width lh lw).rectangle_right ∧
      (0 <= top - (1 + (lh : Int)) →
        (labelGeom left top image_width lh lw).label_top =
            (labelGeom left top image_width lh lw).rectangle_top + 1 ∧
          (labelGeom left top image_width lh lw).label_bottom =
            (labelGeom left top image_width lh lw).rectangle_bottom) ∧
      (top - (1 + (lh : Int)) < 0 →
        (labelGeom left top image_width lh lw).label_top =
            (labelGeom left top image_width lh lw).rectangle_top ∧
          (labelGeom left top image_width lh lw).label_bottom =
            (labelGeom left top image_width lh lw).rectangle_bottom - 1) := by
  simp only [labelGeom]
  split
  case isTrue h =>
    dsimp only
    exact ⟨rfl, by omega, fun hc => by omega, fun _ => ⟨rfl, by omega⟩⟩
  case isFalse h =>
    dsimp only
    exact ⟨rfl, by omega, fun _ => ⟨rfl, by omega⟩, fun hc => absurd hc h⟩

/-- Counterexample to C9 as stated: a box at `top = 0` flips the label
placement, and the blit's top row then coincides with the filled
rectangle's top row — there is no 1-pixel inset at the top. -/
theorem labelGeom_insets_counterexample :
    ¬ (labelGeom 5 0 100 2 3).label_top = (labelGeom 5 0 100 2 3).rectangle_top + 1 := by
  decide

/-- Witness for C9 in both placements at concrete inputs. -/
theorem labelGeom_insets_witness :
    ((labelGeom 10 50 200 5 20).label_top =
        (labelGeom 10 50 200 5 20).rectangle_top + 1 ∧
      (labelGeom 10 50 200 5 20).label_bottom =
        (labelGeom 10 50 200 5 20).rectangle_bottom) ∧
      ((labelGeom 10 2 200 5 20).label_top = (labelGeom 10 2 200 5 20).rectangle_top ∧
        (labelGeom 10 2 200 5 20).label_bottom =
          (labelGeom 10 2 200 5 20).rectangle_bottom - 1) :=
  ⟨(labelGeom_insets 10 50 200 5 20).2.2.1 (by decide),
    (labelGeom_insets 10 2 200 5 20).2.2.2 (by decide)⟩

/-! ### Claims C1 and C10: in-place mutation, return value, no color fallback -/

/-- C1 (amended) — A valid call to `add` (array image, integer
coordinates, optional string label, palette color, drawing succeeds)
mutates the caller's image buffer in place — after the call the caller's
`image` argument holds the drawn result — but the function itself returns
`None`, not the image: the body of `add` has no `return` statement. -/
theorem add_mutates_in_place_returns_none (font : Font) (img : Img)
    (l t r b : Int) (lab : Option String) (c : String) (img2 : Img)
    (hc : c ∈ _COLOR_NAMES)
    (hdr : addDraw font img l t r b (truthyLabelOpt (pyOfOptStr lab))
      (colorPair c) = (img2, Option.none)) :
    add font (.ndarray img) (.int l) (.int t) (.int r) (.int b)
        (pyOfOptStr lab) (.str c) =
      ⟨.ndarray img2, .ok .none⟩ := by
  have hcne : c ≠ "" := palette_names_ne_empty c hc
  have hlk : (lookupColor c).isSome = true := lookup_isSome_of_mem_keys _ _ hc
  rcases hlook : lookupColor c with _ | pr
  · rw [hlook] at hlk
    simp at hlk
  · rw [add_reaches_draw font img l t r b (pyOfOptStr lab) (.str c) c pr
      (optStr_label_check lab) (resolvedColor_palette lab c hcne) hlook]
    have hcp : colorPair c = (_rgb_to_bgr pr.1, _rgb_to_bgr pr.2) := by
      unfold colorPair
      rw [hlook]
    rw [hcp] at hdr
    rw [hdr]

/-- Witness for C1 (amended) at a concrete valid call: a 1-by-1 image, an
unlabeled box, color `"red"`; the buffer is overwritten by the outline
stroke and the returned value is `None`. -/
theorem add_mutates_in_place_returns_none_witness :
    add (fun _ => [[0]]) (.ndarray [[[0, 0, 0]]]) (.int 0) (.int 0) (.int 0)
        (.int 0) (pyOfOptStr Option.none) (.str ("red")) =
      ⟨.ndarray [[[255, 47, 65]]], .ok .none⟩ :=
  add_mutates_in_place_returns_none (fun _ => [[0]]) [[[0, 0, 0]]] 0 0 0 0
    Option.none ("red") [[[255, 47, 65]]] (by decide) (by decide)

/-- Counterexample to C1 as stated: at a concrete valid call, `add`
returns `None` — the returned value is not the (mutated) image buffer the
claim says is returned. -/
theorem add_returns_buffer_counterexample :
    (add (fun _ => [[0]]) (.ndarray [[[0, 0, 0]]]) (.int 0) (.int 0) (.int 0)
          (.int 0) .none (.str ("red"))).outcome = .ok .none ∧
      ¬ (add (fun _ => [[0]]) (.ndarray [[[0, 0, 0]]]) (.int 0) (.int 0)
            (.int 0) (.int 0) .none (.str ("red"))).outcome =
          .ok ((add (fun _ => [[0]]) (.ndarray [[[0, 0, 0]]]) (.int 0) (.int 0)
            (.int 0) (.int 0) .none (.str ("red"))).imageState) := by
  constructor
  · decide
  · decide

/-- C10 — When `label` is `None` or the empty string and `color` is
`None`, `add` raises `TypeError("'color' must be a str")` before touching
the buffer: the falsy label skips the auto-color branch, and the
commented-out fallback to `_DEFAULT_COLOR_NAME` does not exist in live
code, so the `None` color reaches the string check unchanged. -/
theorem no_default_color_fallback (font : Font) (img : Img) (l t r b : Int)
    (lab : PyVal) (h : lab = PyVal.none ∨ lab = .str "") :
    add font (.ndarray img) (.int l) (.int t) (.int r) (.int b) lab .none =
      ⟨.ndarray img, .error (.typeError ("\x27color\x27 must be a str"))⟩ := by
  rcases h with rfl | rfl <;> rfl

/-- Witness for C10 at a concrete call with `label=None, color=None`. -/
theorem no_default_color_fallback_witness :
    add (fun _ => [[0]]) (.ndarray [[[0, 0, 0]]]) (.int 0) (.int 0) (.int 0)
        (.int 0) .none .none =
      ⟨.ndarray [[[0, 0, 0]]], .error (.typeError ("\x27color\x27 must be a str"))⟩ :=
  no_default_color_fallback (fun _ => [[0]]) [[[0, 0, 0]]] 0 0 0 0 PyVal.none
    (Or.inl rfl)

/-! ### Claim C6: error taxonomy of `add` -/

def isTypeErr : PyErr → Bool
  | .typeError _ => true
  | _ => false

theorem convErr_of_intConv_err (v : PyVal) (e : PyErr)
    (h : intConvPy v = .error e) : isTypeErr (convErr e) = true := by
  cases v with
  | int n => simp [intConvPy] at h
  | float q => simp [intConvPy] at h
  | str s =>
    simp only [intConvPy] at h
    split at h
    · simp at h
    · simp only [Except.error.injEq] at h
      subst h
      rfl
  | none =>
    simp only [intConvPy, Except.error.injEq] at h
    subst h
    rfl
  | ndarray a =>
    simp only [intConvPy, Except.error.injEq] at h
    subst h
    rfl

theorem convCoords_err_isTypeErr (l t r b : PyVal) (e : PyErr)
    (h : convCoords l t r b = .error e) : isTypeErr e = true := by
  unfold convCoords at h
  split at h
  case h_1 e1 he1 =>
    simp only [Except.error.injEq] at h
    subst h
    exact convErr_of_intConv_err _ _ he1
  case h_2 li hl =>
    split at h
    case h_1 e1 he1 =>
      simp only [Except.error.injEq] at h
      subst h
      exact convErr_of_intConv_err _ _ he1
    case h_2 ti ht =>
      split at h
      case h_1 e1 he1 =>
        simp only [Except.error.injEq] at h
        subst h
        exact convErr_of_intConv_err _ _ he1
      case h_2 ri hr =>
        split at h
        case h_1 e1 he1 =>
          simp only [Except.error.injEq] at h
          subst h
          exact convErr_of_intConv_err _ _ he1
        case h_2 bi hb => simp at h

/-- C6 (amended) — The error cases of `add`, in the order the source
checks them; in every case the raised error leaves the caller's buffer
exactly as it was (`imageState` is the unchanged argument), since all
checks precede every pixel write.  (1) A non-array image raises
`TypeError`.  (2) A coordinate on which `int()` fails raises a
`TypeError` — either the handler's re-raise of `int()`'s `ValueError` or
`int()`'s own `TypeError`.  (3) A *truthy* label that is not a string
raises `TypeError` (a falsy non-string label such as `0` passes the check
`if label and type(label) is not str`, see the counterexample).  (4) If
the color after auto-resolution is not a string, `TypeError`.  (5) If the
color string is not a palette key, `ValueError` (the spec's UnknownColor
"lookup error"). -/
theorem add_error_cases (font : Font) (image l t r b lab col : PyVal) :
    (isNdarray image = false →
      add font image l t r b lab col =
        ⟨image, .error (.typeError ("\x27image\x27 parameter must be a numpy.ndarray"))⟩) ∧
      (∀ img0 e, image = .ndarray img0 → convCoords l t r b = .error e →
        isTypeErr e = true ∧ add font image l t r b lab col = ⟨image, .error e⟩) ∧
      (∀ img0 q, image = .ndarray img0 → convCoords l t r b = .ok q →
        (pyTruthy lab && !isStr lab) = true →
        add font image l t r b lab col =
          ⟨image, .error (.typeError ("\x27label\x27 must be a str"))⟩) ∧
      (∀ img0 q, image = .ndarray img0 → convCoords l t r b = .ok q →
        (pyTruthy lab && !isStr lab) = false →
        isStr (resolvedColor lab col) = false →
        add font image l t r b lab col =
          ⟨image, .error (.typeError ("\x27color\x27 must be a str"))⟩) ∧
      (∀ img0 q cs, image = .ndarray img0 → convCoords l t r b = .ok q →
        (pyTruthy lab && !isStr lab) = false →
        resolvedColor lab col = .str cs → lookupColor cs = Option.none →
        add font image l t r b lab col =
          ⟨image, .error (.valueError (("\x27color\x27 must be one of ") ++
            String.intercalate (", ") _COLOR_NAMES))⟩) := by
  refine ⟨?_, ?_, ?_, ?_, ?_⟩
  · intro hnd
    unfold add
    rw [hnd]
    rfl
  · intro img0 e himg hconv
    subst himg
    refine ⟨convCoords_err_isTypeErr _ _ _ _ _ hconv, ?_⟩
    unfold add
    rw [hconv]
    rfl
  · intro img0 q himg hconv hlab
    subst himg
    unfold add
    rw [hconv]
    rcases q with ⟨li, ti, ri, bi⟩
    simp only [isNdarray, Bool.not_true, Bool.false_eq_true, if_false]
    rw [hlab]
    rfl
  · intro img0 q himg hconv hlab hcol
    subst himg
    unfold add
    rw [hconv]
    rcases q with ⟨li, ti, ri, bi⟩
    simp only [isNdarray, Bool.not_true, Bool.false_eq_true, if_false]
    rw [hlab]
    simp only [Bool.false_eq_true, if_false]
    rw [hcol]
    rfl
  · intro img0 q cs himg hconv hlab hres hlook
    subst himg
    unfold add
    rw [hconv]
    rcases q with ⟨li, ti, ri, bi⟩
    simp only [isNdarray, Bool.not_true, Bool.false_eq_true, if_false]
    rw [hlab]
    simp only [Bool.false_eq_true, if_false]
    rw [hres]
    have hstr : isStr (PyVal.str cs) = true := rfl
    simp only [hstr, Bool.not_true, Bool.false_eq_true, if_false, pyStrVal]
    rw [hlook]

/-- Counterexample to C6 as stated: the integer `0` is a non-`None` label
that is not a string, yet `add` raises no error at all for it — the check
`if label and type(label) is not str` is skipped for falsy labels, the
box is drawn, and the falsy label is not rendered. -/
theorem add_error_cases_counterexample :
    (add (fun _ => [[0]]) (.ndarray [[[0, 0, 0]]]) (.int 0) (.int 0) (.int 0)
          (.int 0) (.int 0) (.str ("red"))).outcome = .ok .none := by
  decide

/-- Witness for C6 (amended): each of the five error cases at a concrete
input, with the buffer equal to the untouched argument. -/
theorem add_error_cases_witness :
    (add (fun _ => [[0]]) (.int 7) (.int 0) (.int 0) (.int 0) (.int 0)
        .none .none =
      ⟨.int 7, .error (.typeError ("\x27image\x27 parameter must be a numpy.ndarray"))⟩) ∧
      (isTypeErr (.typeError
          ("\x27left\x27, \x27top\x27, \x27right\x27 & \x27bottom\x27 must be a number")) = true ∧
        add (fun _ => [[0]]) (.ndarray [[[0, 0, 0]]]) (.str ("oops")) (.int 0)
            (.int 0) (.int 0) .none .none =
          ⟨.ndarray [[[0, 0, 0]]], .error (.typeError
            ("\x27left\x27, \x27top\x27, \x27right\x27 & \x27bottom\x27 must be a number"))⟩) ∧
      (add (fun _ => [[0]]) (.ndarray [[[0, 0, 0]]]) (.int 0) (.int 0) (.int 0)
          (.int 0) (.int 3) .none =
        ⟨.ndarray [[[0, 0, 0]]], .error (.typeError ("\x27label\x27 must be a str"))⟩) ∧
      (add (fun _ => [[0]]) (.ndarray [[[0, 0, 0]]]) (.int 0) (.int 0) (.int 0)
          (.int 0) .none (.float 5) =
        ⟨.ndarray [[[0, 0, 0]]], .error (.typeError ("\x27color\x27 must be a str"))⟩) ∧
      (add (fun _ => [[0]]) (.ndarray [[[0, 0, 0]]]) (.int 0) (.int 0) (.int 0)
          (.int 0) .none (.str ("black")) =
        ⟨.ndarray [[[0, 0, 0]]], .error (.valueError (("\x27color\x27 must be one of ") ++
          String.intercalate (", ") _COLOR_NAMES))⟩) :=
  ⟨(add_error_cases (fun _ => [[0]]) (.int 7) (.int 0) (.int 0) (.int 0)
      (.int 0) .none .none).1 (by decide),
    (add_error_cases (fun _ => [[0]]) (.ndarray [[[0, 0, 0]]]) (.str ("oops"))
        (.int 0) (.int 0) (.int 0) .none .none).2.1 [[[0, 0, 0]]]
      (.typeError ("\x27left\x27, \x27top\x27, \x27right\x27 & \x27bottom\x27 must be a number"))
      rfl (by decide),
    (add_error_cases (fun _ => [[0]]) (.ndarray [[[0, 0, 0]]]) (.int 0) (.int 0)
        (.int 0) (.int 0) (.int 3) .none).2.2.1 [[[0, 0, 0]]] (0, 0, 0, 0) rfl
      (by decide) (by decide),
    (add_error_cases (fun _ => [[0]]) (.ndarray [[[0, 0, 0]]]) (.int 0) (.int 0)
        (.int 0) (.int 0) .none (.float 5)).2.2.2.1 [[[0, 0, 0]]] (0, 0, 0, 0) rfl
      (by decide) (by decide) (by decide),
    (add_error_cases (fun _ => [[0]]) (.ndarray [[[0, 0, 0]]]) (.int 0) (.int 0)
        (.int 0) (.int 0) .none (.str ("black"))).2.2.2.2 [[[0, 0, 0]]] (0, 0, 0, 0)
      ("black") rfl (by decide) (by decide) (by decide) (by decide)⟩

/-! ### Claim C7: segmentation decode -/

theorem nth_default_irrel {α : Type} (l : List α) (i : Nat) (d₁ d₂ : α)
    (h : i < l.length) : nth l i d₁ = nth l i d₂ := by
  induction l generalizing i with
  | nil => simp at h
  | cons a t ih =>
    cases i with
    | zero => rfl
    | succ n => exact ih n (by simpa using h)

theorem nth_range_map {α : Type} (n : Nat) (f : Nat → α) (i : Nat) (d : α)
    (h : i < n) : nth ((List.range n).map f) i d = f i := by
  rw [nth_map f _ _ _ 0 (by simpa using h), nth_range _ _ _ h]

theorem lookup_mem {α β : Type} [BEq α] [LawfulBEq α] (ms : List (α × β))
    (k : α) (v : β) (h : ms.lookup k = some v) : (k, v) ∈ ms := by
  induction ms with
  | nil => simp [List.lookup] at h
  | cons p rest ih =>
    simp only [List.lookup] at h
    split at h
    · cases h
      have : k = p.1 := by
        rename_i heq
        exact eq_of_beq heq
      subst this
      exact List.mem_cons_self _ _
    · exact List.mem_cons_of_mem _ (ih h)

theorem maskAssign_length (labels : List (List Nat)) (id : Nat) (col : List Rat)
    (rgb : Img) : (maskAssign labels id col rgb).length = rgb.length := by
  simp [maskAssign]

theorem maskAssign_rowlen (labels : List (List Nat)) (id : Nat) (col : List Rat)
    (rgb : Img) (i : Nat) (hi : i < rgb.length) :
    (nth (maskAssign labels id col rgb) i []).length = (nth rgb i []).length := by
  unfold maskAssign
  rw [nth_range_map _ _ _ _ hi]
  simp

theorem maskAssign_pixel (labels : List (List Nat)) (id : Nat) (col : List Rat)
    (rgb : Img) (i j : Nat) (hi : i < rgb.length)
    (hj : j < (nth rgb i []).length) :
    nth (nth (maskAssign labels id col rgb) i []) j [] =
      if nth (nth labels i []) j (id + 1) == id then col
      else nth (nth rgb i []) j [] := by
  unfold maskAssign
  rw [nth_range_map _ _ _ _ hi, nth_range_map _ _ _ _ hj]

theorem decodeFold_length (labels : List (List Nat))
    (ms : List (Nat × List Rat)) (rgb : Img) :
    (ms.foldl (fun rgb p => maskAssign labels p.1 (p.2.map fun x => x / 255) rgb)
      rgb).length = rgb.length := by
  induction ms generalizing rgb with
  | nil => rfl
  | cons p rest ih =>
    simp only [List.foldl_cons]
    rw [ih, maskAssign_length]

theorem decodeFold_rowlen (labels : List (List Nat))
    (ms : List (Nat × List Rat)) (rgb : Img) (i : Nat) (hi : i < rgb.length) :
    (nth (ms.foldl (fun rgb p => maskAssign labels p.1 (p.2.map fun x => x / 255) rgb)
      rgb) i []).length = (nth rgb i []).length := by
  induction ms generalizing rgb with
  | nil => rfl
  | cons p rest ih =>
    simp only [List.foldl_cons]
    rw [ih _ (by rw [maskAssign_length]; exact hi), maskAssign_rowlen _ _ _ _ _ hi]

theorem decodeFold_pixel_notmem (labels : List (List Nat)) (i j : Nat)
    (hli : i < labels.length) (hlj : j < (nth labels i []).length)
    (ms : List (Nat × List Rat)) (rgb : Img) (hi : i < rgb.length)
    (hj : j < (nth rgb i []).length)
    (hk : nth (nth labels i []) j 0 ∉ ms.map Prod.fst) :
    nth (nth (ms.foldl (fun rgb p => maskAssign labels p.1 (p.2.map fun x => x / 255) rgb)
      rgb) i []) j [] = nth (nth rgb i []) j [] := by
  induction ms generalizing rgb with
  | nil => rfl
  | cons p rest ih =>
    simp only [List.map_cons, List.mem_cons, not_or] at hk
    simp only [List.foldl_cons]
    rw [ih _ (by rw [maskAssign_length]; exact hi)
      (by rw [maskAssign_rowlen _ _ _ _ _ hi]; exact hj)
      hk.2]
    rw [maskAssign_pixel _ _ _ _ _ _ hi hj]
    have hne : nth (nth labels i []) j (p.1 + 1) ≠ p.1 := by
      rw [nth_default_irrel _ _ _ 0 hlj]
      exact hk.1
    simp [hne]

theorem decodeFold_pixel (labels : List (List Nat)) (i j : Nat)
    (hli : i < labels.length) (hlj : j < (nth labels i []).length)
    (ms : List (Nat × List Rat)) (rgb : Img) (hnd : (ms.map Prod.fst).Nodup)
    (hi : i < rgb.length) (hj : j < (nth rgb i []).length) :
    nth (nth (ms.foldl (fun rgb p => maskAssign labels p.1 (p.2.map fun x => x / 255) rgb)
      rgb) i []) j [] =
      match ms.lookup (nth (nth labels i []) j 0) with
      | some col => col.map (fun x => x / 255)
      | Option.none => nth (nth rgb i []) j [] := by
  induction ms generalizing rgb with
  | nil => rfl
  | cons p rest ih =>
    simp only [List.map_cons, List.nodup_cons] at hnd
    simp only [List.foldl_cons, List.lookup]
    by_cases hkey : nth (nth labels i []) j 0 = p.1
    · have hbeq : (nth (nth labels i []) j 0 == p.1) = true := by
        simp [hkey]
      rw [hbeq]
      simp only
      rw [decodeFold_pixel_notmem labels i j hli hlj rest _
        (by rw [maskAssign_length]; exact hi)
        (by rw [maskAssign_rowlen _ _ _ _ _ hi]; exact hj)
        (by rw [hkey]; exact hnd.1)]
      rw [maskAssign_pixel _ _ _ _ _ _ hi hj]
      have heq : nth (nth labels i []) j (p.1 + 1) = p.1 := by
        rw [nth_default_irrel _ _ _ 0 hlj]
        exact hkey
      simp [heq]
    · have hbeq : (nth (nth labels i []) j 0 == p.1) = false := by
        simp [hkey]
      rw [hbeq]
      simp only
      rw [ih _ hnd.2 (by rw [maskAssign_length]; exact hi)
        (by rw [maskAssign_rowlen _ _ _ _ _ hi]; exact hj)]
      rw [maskAssign_pixel _ _ _ _ _ _ hi hj]
      have hne : nth (nth labels i []) j (p.1 + 1) ≠ p.1 := by
        rw [nth_default_irrel _ _ _ 0 hlj]
        exact hkey
      simp [hne]

/-- C7 — For an (H, W) label array (rectangular) and dataset
`"cityscapes"`, `decode_segmap` succeeds and returns an (H, W, 3) array in
which every pixel whose class id is a key of the color mapping holds
`mapping[id] / 255` and every pixel whose id is unmapped holds the zero
background `[0, 0, 0]`.  The mapping is the function's external
`CITYSCAPES_COLOR_MAPPING` collaborator, passed as a parameter: any
mapping with distinct keys and RGB-triple values (as the cityscapes table
has). -/
theorem decode_segmap_roundtrip (mapping : List (Nat × List Rat))
    (labels : List (List Nat)) (i j : Nat)
    (hnd : (mapping.map Prod.fst).Nodup)
    (hrect : ∀ k, k < labels.length →
      (nth labels k []).length = (labels.headD []).length)
    (h3 : ∀ p ∈ mapping, p.2.length = 3)
    (hi : i < labels.length) (hj : j < (labels.headD []).length) :
    decode_segmap mapping labels ("cityscapes") =
        .ok (decode_segmapCore mapping labels) ∧
      (decode_segmapCore mapping labels).length = labels.length ∧
      (∀ k, k < labels.length →
        (nth (decode_segmapCore mapping labels) k []).length =
          (labels.headD []).length) ∧
      (nth (nth (decode_segmapCore mapping labels) i []) j []).length = 3 ∧
      nth (nth (decode_segmapCore mapping labels) i []) j [] =
        match mapping.lookup (nth (nth labels i []) j 0) with
        | some col => col.map (fun x => x / 255)
        | Option.none => [0, 0, 0] := by
  have hzlen : (zerosImg labels.length (labels.headD []).length).length =
      labels.length := by
    simp [zerosImg]
  have hzrow : ∀ k, k < labels.length →
      nth (zerosImg labels.length (labels.headD []).length) k [] =
        List.replicate (labels.headD []).length [0, 0, 0] := by
    intro k hk
    unfold zerosImg
    exact nth_replicate _ _ _ _ hk
  have hpix : nth (nth (decode_segmapCore mapping labels) i []) j [] =
      match mapping.lookup (nth (nth labels i []) j 0) with
      | some col => col.map (fun x => x / 255)
      | Option.none => [0, 0, 0] := by
    unfold decode_segmapCore
    rw [decodeFold_pixel labels i j hi (by rw [hrect i hi]; exact hj) mapping _
      hnd (by rw [hzlen]; exact hi)
      (by rw [hzrow i hi]; simpa using hj)]
    rw [hzrow i hi, nth_replicate _ _ _ _ hj]
  refine ⟨rfl, ?_, ?_, ?_, hpix⟩
  · unfold decode_segmapCore
    rw [decodeFold_length, hzlen]
  · intro k hk
    unfold decode_segmapCore
    rw [decodeFold_rowlen _ _ _ _ (by rw [hzlen]; exact hk), hzrow k hk]
    simp
  · rw [hpix]
    rcases hlk : mapping.lookup (nth (nth labels i []) j 0) with _ | col
    · rfl
    · simp only [List.length_map]
      exact h3 _ (lookup_mem _ _ _ hlk)

/-- Witness for C7 on a concrete 2-by-2 label array: pixel (0, 0) carries
a mapped id (color `[255, 0, 0] / 255`), pixel (0, 1) an unmapped one
(background zero). -/
theorem decode_segmap_roundtrip_witness :
    decode_segmap [(1, [255, 0, 0]), (2, [0, 255, 0])] [[1, 3], [2, 1]]
        ("cityscapes") =
        .ok (decode_segmapCore [(1, [255, 0, 0]), (2, [0, 255, 0])] [[1, 3], [2, 1]]) ∧
      (decode_segmapCore [(1, [255, 0, 0]), (2, [0, 255, 0])] [[1, 3], [2, 1]]).length = 2 ∧
      (∀ k, k < 2 →
        (nth (decode_segmapCore [(1, [255, 0, 0]), (2, [0, 255, 0])] [[1, 3], [2, 1]]) k []).length = 2) ∧
      (nth (nth (decode_segmapCore [(1, [255, 0, 0]), (2, [0, 255, 0])] [[1, 3], [2, 1]]) 0 []) 1 []).length = 3 ∧
      nth (nth (decode_segmapCore [(1, [255, 0, 0]), (2, [0, 255, 0])] [[1, 3], [2, 1]]) 0 []) 1 [] =
        match List.lookup (nth (nth [[1, 3], [2, 1]] 0 []) 1 0)
            [(1, [255, 0, 0]), (2, [0, 255, 0])] with
        | some col => col.map (fun x => x / 255)
        | Option.none => [0, 0, 0] :=
  decode_segmap_roundtrip [(1, [255, 0, 0]), (2, [0, 255, 0])] [[1, 3], [2, 1]]
    0 1 (by decide) (by decide) (by decide) (by decide) (by decide)

/-! ### Claim C8: glyph colorization -/

theorem _color_image_length (mask : List (List Rat)) (f b : Rat) :
    (_color_image mask f b).length = mask.length := by
  simp [_color_image]

theorem _color_image_rowlen (mask : List (List Rat)) (f b : Rat) (k : Nat)
    (hk : k < mask.length) :
    (nth (_color_image mask f b) k []).length = (nth mask k []).length := by
  unfold _color_image
  rw [nth_map _ _ _ _ [] hk]
  simp

theorem _color_image_pixel (mask : List (List Rat)) (f b : Rat) (i j : Nat)
    (hi : i < mask.length) (hj : j < (nth mask i []).length) :
    nth (nth (_color_image mask f b) i []) j 0 =
      b + (f - b) * nth (nth mask i []) j 0 / 255 := by
  unfold _color_image
  rw [nth_map _ _ _ _ [] hi, nth_map _ _ _ _ 0 hj]

/-- C8 — For every glyph mask produced by the font for the given text, and
3-channel font/background colors, `_get_label_image` computes each output
pixel channel-wise by the exact linear interpolation
`background + (foreground - background) * mask / 255`, and the output has
shape (text_height, text_width, 3): as many rows as the mask, rows as
wide as the mask, and one entry per channel in each pixel.  (The
arithmetic is the exact rational image of the numpy float expression,
before any cast to the image buffer.) -/
theorem get_label_image_interpolation (font : Font) (text : String)
    (fc bc : List Rat) (i j : Nat) (hfc : fc.length = 3) (hbc : bc.length = 3)
    (hrect : ∀ k, k < (font text).length →
      (nth (font text) k []).length = (nth (font text) 0 []).length)
    (hi : i < (font text).length) (hj : j < (nth (font text) 0 []).length) :
    (_get_label_image font text fc bc).length = (font text).length ∧
      (∀ k, k < (font text).length →
        (nth (_get_label_image font text fc bc) k []).length =
          (nth (font text) 0 []).length) ∧
      (nth (nth (_get_label_image font text fc bc) i []) j []).length = 3 ∧
      nth (nth (_get_label_image font text fc bc) i []) j [] =
        [nth bc 0 0 + (nth fc 0 0 - nth bc 0 0) * nth (nth (font text) i []) j 0 / 255,
         nth bc 1 0 + (nth fc 1 0 - nth bc 1 0) * nth (nth (font text) i []) j 0 / 255,
         nth bc 2 0 + (nth fc 2 0 - nth bc 2 0) * nth (nth (font text) i []) j 0 / 255] := by
  obtain ⟨f0, f1, f2, rfl⟩ := List.length_eq_three.mp hfc
  obtain ⟨b0, b1, b2, rfl⟩ := List.length_eq_three.mp hbc
  have hd1 : (nth ([(f0, b0), (f1, b1), (f2, b2)].map
      fun p => _color_image (font text) p.1 p.2) 0 []).length = (font text).length := by
    simp [_color_image]
  have hd2 : (nth (nth ([(f0, b0), (f1, b1), (f2, b2)].map
      fun p => _color_image (font text) p.1 p.2) 0 []) 0 []).length =
      (nth (font text) 0 []).length := by
    rcases hmask : font text with _ | ⟨row, rest⟩ <;>
      simp [_color_image, hmask]
  have hzip : ([f0, f1, f2].zip [b0, b1, b2]) = [(f0, b0), (f1, b1), (f2, b2)] := rfl
  simp only [_get_label_image, hzip, transpose120]
  rw [hd1, hd2]
  refine ⟨by simp, ?_, ?_, ?_⟩
  · intro k hk
    rw [nth_range_map _ _ _ _ hk]
    simp
  · rw [nth_range_map _ _ _ _ hi, nth_range_map _ _ _ _ hj]
    simp
  · rw [nth_range_map _ _ _ _ hi, nth_range_map _ _ _ _ hj]
    simp only [List.map_cons, List.map_nil]
    have hjr : j < (nth (font text) i []).length := by
      rw [hrect i hi]
      exact hj
    rw [_color_image_pixel (font text) f0 b0 i j hi hjr,
      _color_image_pixel (font text) f1 b1 i j hi hjr,
      _color_image_pixel (font text) f2 b2 i j hi hjr]
    simp

/-- Witness for C8 on a concrete 2-by-2 mask and concrete channel
colors. -/
theorem get_label_image_interpolation_witness :
    (_get_label_image (fun _ => [[0, 255], [128, 3]]) ("a") [1, 2, 3] [4, 5, 6]).length = 2 ∧
      (∀ k, k < ((fun (_ : String) => [[(0 : Rat), 255], [128, 3]]) ("a")).length →
        (nth (_get_label_image (fun _ => [[0, 255], [128, 3]]) ("a") [1, 2, 3] [4, 5, 6]) k []).length = 2) ∧
      (nth (nth (_get_label_image (fun _ => [[0, 255], [128, 3]]) ("a") [1, 2, 3] [4, 5, 6]) 0 []) 1 []).length = 3 ∧
      nth (nth (_get_label_image (fun _ => [[0, 255], [128, 3]]) ("a") [1, 2, 3] [4, 5, 6]) 0 []) 1 [] =
        [4 + (1 - 4) * 255 / 255, 5 + (2 - 5) * 255 / 255, 6 + (3 - 6) * 255 / 255] := by
  have h := get_label_image_interpolation (fun _ => [[0, 255], [128, 3]]) ("a")
    [1, 2, 3] [4, 5, 6] 0 1 rfl rfl (by decide) (by decide) (by decide)
  refine ⟨h.1, h.2.1, h.2.2.1, ?_⟩
  rw [h.2.2.2]
  rfl

/-! ### Claim C4: `plot_bboxes` never mutates the caller's image -/

theorem nth_set_self {α : Type} (l : List α) (i : Nat) (a d : α)
    (h : i < l.length) : nth (l.set i a) i d = a := by
  induction l generalizing i with
  | nil => simp at h
  | cons b t ih =>
    cases i with
    | zero => rfl
    | succ n => exact ih n (by simpa using h)

theorem nth_set_ne {α : Type} (l : List α) (i j : Nat) (a d : α)
    (h : j ≠ i) : nth (l.set i a) j d = nth l j d := by
  induction l generalizing i j with
  | nil => simp
  | cons b t ih =>
    cases i with
    | zero =>
      cases j with
      | zero => exact absurd rfl h
      | succ m => rfl
    | succ n =>
      cases j with
      | zero => rfl
      | succ m => exact ih n m (by omega)

theorem drawLoop_length (font : Font) (label_mappings : List String)
    (colors : Option (List PyVal)) (boxes : List BBox2D) (i : Nat)
    (heap : Heap) (ref : Nat) :
    (drawLoop font label_mappings colors boxes i heap ref).1.length =
      heap.length := by
  induction boxes generalizing i heap with
  | nil => rfl
  | cons box rest ih =>
    simp only [drawLoop]
    split
    · simp [writeH]
    · rw [ih]
      simp [writeH]

/-- The heap-level `plot_bboxes` loop refines the pure loop: it returns
the same error, the buffer it draws into ends up holding exactly the pure
loop's image, and every other buffer in the heap is untouched. -/
theorem drawLoop_spec (font : Font) (label_mappings : List String)
    (colors : Option (List PyVal)) (boxes : List BBox2D) (i : Nat)
    (heap : Heap) (ref : Nat) (href : ref < heap.length) :
    (drawLoop font label_mappings colors boxes i heap ref).2 =
        (drawLoopPure font label_mappings colors boxes i (readH heap ref)).2 ∧
      ∀ k, readH (drawLoop font label_mappings colors boxes i heap ref).1 k =
        if k = ref then
          (drawLoopPure font label_mappings colors boxes i (readH heap ref)).1
        else readH heap k := by
  induction boxes generalizing i heap with
  | nil =>
    refine ⟨rfl, fun k => ?_⟩
    by_cases hk : k = ref
    · subst hk
      simp [drawLoop, drawLoopPure]
    · simp [drawLoop, drawLoopPure, hk]
  | cons box rest ih =>
    simp only [drawLoop, drawLoopPure]
    rcases hst : (plotStep font label_mappings colors i box (readH heap ref)).2
      with _ | e
    · simp only [hst]
      have hlen2 : ref < (writeH heap ref
          (plotStep font label_mappings colors i box (readH heap ref)).1).length := by
        simp [writeH, href]
      have hread2 : readH (writeH heap ref
          (plotStep font label_mappings colors i box (readH heap ref)).1) ref =
          (plotStep font label_mappings colors i box (readH heap ref)).1 :=
        nth_set_self _ _ _ _ href
      obtain ⟨ihsnd, ihfst⟩ := ih (i + 1) (writeH heap ref
        (plotStep font label_mappings colors i box (readH heap ref)).1) hlen2
      rw [hread2] at ihsnd ihfst
      refine ⟨ihsnd, fun k => ?_⟩
      rw [ihfst k]
      by_cases hk : k = ref
      · simp [hk]
      · simp only [hk, if_false]
        exact nth_set_ne _ _ _ _ _ hk
    · simp only [hst]
      refine ⟨by trivial, fun k => ?_⟩
      by_cases hk : k = ref
      · subst hk
        rw [if_pos rfl]
        exact nth_set_self _ _ _ _ href
      · simp only [hk, if_false]
        exact nth_set_ne _ _ _ _ _ hk

/-- C4 — `plot_bboxes` never mutates the caller's original image: after
the call the caller's buffer holds exactly its old pixels, whatever
happens inside the loop (including an exception propagating out of
`add`); and when the call returns, it returns a fresh image object — a
different buffer than the input — holding the result of drawing all boxes
in order (the pure loop `drawLoopPure`) on a copy of the original
pixels. -/
theorem plot_bboxes_no_mutation (font : Font) (heap : Heap) (imageRef : Nat)
    (boxes : List BBox2D) (label_mappings : List String)
    (colors : Option (List PyVal)) (h : imageRef < heap.length) :
    readH (plot_bboxes font heap imageRef boxes label_mappings colors).1
        imageRef = readH heap imageRef ∧
      ∀ r, (plot_bboxes font heap imageRef boxes label_mappings colors).2 = .ok r →
        r ≠ imageRef ∧
          readH (plot_bboxes font heap imageRef boxes label_mappings colors).1 r =
            (drawLoopPure font label_mappings colors boxes 0
              (readH heap imageRef)).1 := by
  have hlen1 : imageRef < (heap ++ [readH heap imageRef]).length := by
    simp
    omega
  have hcomb : heap.length < (heap ++ [readH heap imageRef]).length := by
    simp
  have hreadc : readH (heap ++ [readH heap imageRef]) heap.length =
      readH heap imageRef := nth_append_length _ _ _
  have hread1 : readH (heap ++ [readH heap imageRef]) imageRef =
      readH heap imageRef := nth_append_left _ _ _ _ h
  obtain ⟨hsnd, hfst⟩ := drawLoop_spec font label_mappings colors boxes 0
    (heap ++ [readH heap imageRef]) heap.length hcomb
  rw [hreadc] at hsnd hfst
  have hLlen : (drawLoop font label_mappings colors boxes 0
      (heap ++ [readH heap imageRef]) heap.length).1.length =
      heap.length + 1 := by
    rw [drawLoop_length]
    simp
  simp only [plot_bboxes, alloc]
  rcases hL2 : (drawLoop font label_mappings colors boxes 0
      (heap ++ [readH heap imageRef]) heap.length).2 with _ | e
  · simp only [hL2]
    have hLref : readH (drawLoop font label_mappings colors boxes 0
        (heap ++ [readH heap imageRef]) heap.length).1 imageRef =
        readH heap imageRef := by
      rw [hfst imageRef]
      simp only [show imageRef ≠ heap.length from by omega, if_false]
      exact hread1
    constructor
    · rw [readH, nth_append_left _ _ _ _ (by rw [hLlen]; omega)]
      exact hLref
    · intro r hr
      simp only [Except.ok.injEq] at hr
      subst hr
      refine ⟨by omega, ?_⟩
      rw [readH, hLlen]
      have := nth_append_length (drawLoop font label_mappings colors boxes 0
        (heap ++ [readH heap imageRef]) heap.length).1
        (readH (drawLoop font label_mappings colors boxes 0
          (heap ++ [readH heap imageRef]) heap.length).1 heap.length) ([] : Img)
      rw [hLlen] at this
      rw [this]
      rw [hfst heap.length]
      simp
  · simp only [hL2]
    constructor
    · rw [hfst imageRef]
      simp only [show imageRef ≠ heap.length from by omega, if_false]
      exact hread1
    · intro r hr
      simp at hr

/-- Witness for C4: a heap with one 4-by-4 image, one box drawn with an
explicit color; the caller's buffer 0 is unchanged and the fresh buffer 2
holds the pure drawing result. -/
theorem plot_bboxes_no_mutation_witness :
    readH (plot_bboxes (fun _ => [[0]])
        [List.replicate 4 (List.replicate 4 [0, 0, 0])] 0
        [⟨1, 2, 1, 1, 0, 1 / 2⟩] [("car")] (some [.str ("red")])).1 0 =
      readH [List.replicate 4 (List.replicate 4 [0, 0, 0])] 0 ∧
      (2 ≠ 0 ∧
        readH (plot_bboxes (fun _ => [[0]])
            [List.replicate 4 (List.replicate 4 [0, 0, 0])] 0
            [⟨1, 2, 1, 1, 0, 1 / 2⟩] [("car")] (some [.str ("red")])).1 2 =
          (drawLoopPure (fun _ => [[0]]) [("car")] (some [.str ("red")])
            [⟨1, 2, 1, 1, 0, 1 / 2⟩] 0
            (readH [List.replicate 4 (List.replicate 4 [0, 0, 0])] 0)).1) :=
  ⟨(plot_bboxes_no_mutation (fun _ => [[0]])
      [List.replicate 4 (List.replicate 4 [0, 0, 0])] 0
      [⟨1, 2, 1, 1, 0, 1 / 2⟩] [("car")] (some [.str ("red")]) (by decide)).1,
    (plot_bboxes_no_mutation (fun _ => [[0]])
      [List.replicate 4 (List.replicate 4 [0, 0, 0])] 0
      [⟨1, 2, 1, 1, 0, 1 / 2⟩] [("car")] (some [.str ("red")]) (by decide)).2 2
      (by decide)⟩
